import Mathlib

/-!
Formal model of `src/copilot.py` from waybar-ai-usage: a status-bar reporter
for GitHub Copilot premium-request usage.  Python floats are modelled as
rationals, Python ints as `Int`/`Nat`, JSON values as an inductive `Json`
type, and fallible paths as `Except`/`Option`.
-/

namespace Copilot

/-- Python `round` to the nearest integer, ties to even (banker's rounding),
modelled on rationals. -/
def pyRound (q : ℚ) : ℤ :=
  let f := ⌊q⌋
  let r := q - (f : ℚ)
  if r < 1/2 then f
  else if 1/2 < r then f + 1
  else if f % 2 = 0 then f else f + 1

/-- Python `round(x, 1)`: round to one decimal place. -/
def pyRound1 (q : ℚ) : ℚ := (pyRound (q * 10) : ℚ) / 10

/-- The percentage computed by `print_cli` (src/copilot.py line 121):
`round(used / quota * 100) if quota > 0 else 0`, unclamped. -/
def cliPct (used : ℚ) (quota : ℤ) : ℤ :=
  if 0 < quota then pyRound (used / (quota : ℚ) * 100) else 0

/-- The percentage computed by `print_waybar` (src/copilot.py line 136):
`min(round(used / quota * 100) if quota > 0 else 0, 100)`. -/
def waybarPct (used : ℚ) (quota : ℤ) : ℤ :=
  min (if 0 < quota then pyRound (used / (quota : ℚ) * 100) else 0) 100

/-- The CSS class chosen by `print_waybar` (src/copilot.py lines 173-178). -/
def tierClass (pct : ℤ) : String :=
  if pct < 50 then "copilot-low"
  else if pct < 80 then "copilot-mid"
  else "copilot-high"

/-- Modelled from the spec: the tier name of section 4.4 of the spec
(`low` below 50, `mid` from 50 below 80, `high` from 80), used to state
that the emitted class is the tier name with a styling prefix. -/
def specTierName (pct : ℤ) : String :=
  if pct < 50 then "low"
  else if pct < 80 then "mid"
  else "high"

/-- A UTC instant as `datetime` exposes it: year, month, day,
hour, minute, second. -/
structure DateTimeUTC where
  year : ℤ
  month : ℕ
  day : ℕ
  hour : ℕ
  minute : ℕ
  second : ℕ
deriving DecidableEq, Repr

/-- `_next_month_reset_iso` (src/copilot.py lines 109-116): midnight UTC on
the 1st of the month after `now`; December rolls to January of the next
year.  The ISO rendering is not modelled, only the instant. -/
def nextMonthReset (now : DateTimeUTC) : DateTimeUTC :=
  if now.month = 12 then ⟨now.year + 1, 1, 1, 0, 0, 0⟩
  else ⟨now.year, now.month + 1, 1, 0, 0, 0⟩

/-- A parsed JSON value, as `json.loads` can return it: numbers are modelled
as rationals, objects as association lists. -/
inductive Json where
  | null : Json
  | bool (b : Bool) : Json
  | num (q : ℚ) : Json
  | str (s : String) : Json
  | arr (items : List Json) : Json
  | obj (fields : List (String × Json)) : Json

/-- Python dict `.get`: the value of the first binding of `key`, if any. -/
def jsonGet (fields : List (String × Json)) (key : String) : Option Json :=
  (fields.find? (fun f => f.1 == key)).map (fun f => f.2)

/-- Python truthiness of a JSON value: `None`, `False`, `0`, the empty
string and the empty collections are falsy, everything else truthy. -/
def Json.truthy : Json → Bool
  | .null => false
  | .bool b => b
  | .num q => !(q == 0)
  | .str s => !(s == "")
  | .arr items => !items.isEmpty
  | .obj fields => !fields.isEmpty

/-- Whether a JSON value is an object, as Python `isinstance(data, dict)`. -/
def Json.isObj : Json → Bool
  | .obj _ => true
  | _ => false

/-- `data.get("login") if isinstance(data, dict) else None`
(src/copilot.py line 80). -/
def loginGet (data : Json) : Option Json :=
  match data with
  | .obj fields => jsonGet fields "login"
  | _ => none

/-- The username extraction of `_get_github_username`
(src/copilot.py lines 80-83): returns the `login` value unless Python
would judge it falsy (absent, `None`, empty string, ...), in which case a
`RuntimeError` is raised. -/
def pyGetUsername (data : Json) : Except String Json :=
  match loginGet data with
  | some v =>
      if v.truthy then .ok v
      else .error "Could not determine GitHub username"
  | none => .error "Could not determine GitHub username"

/-- Whether an `Except` carries a success. -/
def exceptOk : Except String Json → Bool
  | .ok _ => true
  | .error _ => false

/-- The `grossQuantity` contribution of one line-item
(src/copilot.py line 98): `item.get("grossQuantity", 0)`.  A non-object
item or a non-numeric field would make the Python sum raise, which the
model renders as `none`; a boolean field sums as a Python int. -/
def itemGross (item : Json) : Option ℚ :=
  match item with
  | .obj fields =>
      match jsonGet fields "grossQuantity" with
      | none => some 0
      | some (.num q) => some q
      | some (.bool b) => some (if b then 1 else 0)
      | some _ => none
  | _ => none

/-- `sum(item.get("grossQuantity", 0) for item in usage_items)`
(src/copilot.py line 98). -/
def sumGross : List Json → Option ℚ
  | [] => some 0
  | item :: rest =>
      match itemGross item, sumGross rest with
      | some a, some b => some (a + b)
      | _, _ => none

/-- The shape normalisation of `_fetch_copilot_usage_uncached`
(src/copilot.py lines 92-96): a bare list is taken as the items; an object
yields its `usageItems` field, defaulting to `[]`.  Shapes on which the
Python code would raise (a scalar response, or a non-list `usageItems`)
are rendered as `none`. -/
def normalizeUsage : Json → Option (List Json)
  | .arr items => some items
  | .obj fields =>
      match jsonGet fields "usageItems" with
      | none => some []
      | some (.arr items) => some items
      | some _ => none
  | _ => none

/-- The `used` value produced by `_fetch_copilot_usage_uncached`
(src/copilot.py lines 92-99): normalise the response shape, sum the
`grossQuantity` fields, round to one decimal place. -/
def aggregateUsed (resp : Json) : Option ℚ :=
  (normalizeUsage resp).bind (fun items => (sumGross items).map pyRound1)

/-- The two-stage fetch of `_fetch_copilot_usage_uncached`
(src/copilot.py lines 86-99), with the number of requests made to the
usage endpoint recorded: the username is resolved first, and only on
success is the usage endpoint addressed. -/
def fetchPipeline (identityResp usageResp : Json) : Except String ℚ × ℕ :=
  match pyGetUsername identityResp with
  | .error e => (.error e, 0)
  | .ok _ =>
      match aggregateUsed usageResp with
      | some used => (.ok used, 1)
      | none => (.error "unusable usage response", 1)

/-- Python `sub in s` substring test: splitting on a non-empty pattern
yields more than one piece exactly when the pattern occurs. -/
def strContains (s sub : String) : Bool :=
  (s.splitOn sub).length != 1

/-- The short error label of the waybar failure branch
(src/copilot.py line 248):
`"Auth Err" if "401" in err_msg or "403" in err_msg else "Net Err"`. -/
def classifyShortErr (msg : String) : String :=
  if strContains msg "401" || strContains msg "403" then "Auth Err" else "Net Err"

/-- How one invocation of `main` ended. -/
inductive RunOutcome where
  | configError : RunOutcome
  | fetchError (msg : String) : RunOutcome
  | success (used : ℚ) : RunOutcome
deriving DecidableEq

/-- The one line of structured stdout `main` prints in waybar mode. -/
inductive StdoutPayload where
  | errorPayload (shortErr : String) (cls : String) : StdoutPayload
  | usagePayload (cls : String) (pct : ℤ) : StdoutPayload
deriving DecidableEq

/-- Observable result of one invocation of `main`. -/
structure RunResult where
  outcome : RunOutcome
  exitCode : ℕ
  networkCalls : ℕ
  stderrLine : Option String
  payload : Option StdoutPayload
deriving DecidableEq

/-- The control flow of `main` (src/copilot.py lines 221-262) after config
loading, with the cache-backed fetch abstracted as `fetch` and the number
of times it is entered recorded in `networkCalls`.  Python judges a missing
or empty token falsy (`if not token`).  The styled markup around the
emitted labels is not modelled, only the label and class strings. -/
def mainRun (cfgPath : String) (token : Option String) (quota : ℤ)
    (waybar : Bool) (fetch : Unit → Except String ℚ) : RunResult :=
  let tokenTruthy := match token with
    | none => false
    | some t => !(t == "")
  if !tokenTruthy then
    if waybar then
      ⟨.configError, 0, 0, none, some (.errorPayload "No Token" "critical")⟩
    else
      ⟨.configError, 1, 0,
        some ("[!] Error: No GITHUB_TOKEN in " ++ cfgPath), none⟩
  else
    match fetch () with
    | .error e =>
        if waybar then
          ⟨.fetchError e, 0, 1, none,
            some (.errorPayload (classifyShortErr e) "critical")⟩
        else
          ⟨.fetchError e, 1, 1, some ("[!] Critical Error: " ++ e), none⟩
    | .ok used =>
        if waybar then
          ⟨.success used, 0, 1, none,
            some (.usagePayload (tierClass (waybarPct used quota))
              (waybarPct used quota))⟩
        else
          ⟨.success used, 0, 1, none, none⟩

/-- Result of one cache-backed fetch: the value, the cache afterwards
(an association list key to fetch time and value, most recent binding
first), and how many times the producer was invoked (0 or 1). -/
structure CacheResult where
  value : Json
  cache : List (String × ℤ × Json)
  calls : ℕ

/-- Modelled from the spec: `common.get_cached_or_fetch` is imported by
src/copilot.py but its source is not in the repository.  Per section 4.1
of the spec, a fresh entry (one with `fetched_at + ttl_seconds > now`,
section 3) is returned without invoking the producer; otherwise the
producer runs and its value is persisted under the key with the current
time, overwriting any earlier binding.  Per the `get_copilot_usage`
docstring the default TTL is 60 seconds. -/
def getCachedOrFetch (key : String) (producer : Unit → Json) (ttl : ℤ)
    (now : ℤ) (cache : List (String × ℤ × Json)) : CacheResult :=
  match cache.find? (fun e => e.1 == key) with
  | some (_, fetchedAt, v) =>
      if fetchedAt + ttl > now then ⟨v, cache, 0⟩
      else
        let v := producer ()
        ⟨v, (key, now, v) :: cache, 1⟩
  | none =>
      let v := producer ()
      ⟨v, (key, now, v) :: cache, 1⟩

/-- The cache key of the identity lookup (src/copilot.py line 76). -/
def identityKey : String := "copilot_user"

/-- The TTL of the identity lookup (src/copilot.py line 78). -/
def identityTtl : ℤ := 3600

/-- The cache key of the usage snapshot (src/copilot.py line 104). -/
def usageKey : String := "copilot"

/-- The TTL of the usage snapshot: `get_copilot_usage` passes no `ttl`,
relying on the default of 60 seconds that its docstring documents. -/
def usageTtl : ℤ := 60

/-- The cached identity lookup of `_get_github_username`
(src/copilot.py lines 75-79), identity extraction aside. -/
def cachedIdentity (producer : Unit → Json) (now : ℤ)
    (cache : List (String × ℤ × Json)) : CacheResult :=
  getCachedOrFetch identityKey producer identityTtl now cache

/-- The cached usage fetch of `get_copilot_usage`
(src/copilot.py lines 102-104). -/
def cachedUsage (producer : Unit → Json) (now : ℤ)
    (cache : List (String × ℤ × Json)) : CacheResult :=
  getCachedOrFetch usageKey producer usageTtl now cache

/-- Digit accumulation of Python `int(str)`, after the first digit:
further digits extend the value, and a single underscore is allowed
between two digits. -/
def digitsValAux : ℕ → List Char → Option ℕ
  | acc, [] => some acc
  | acc, c :: cs =>
    if c.isDigit then digitsValAux (10 * acc + (c.toNat - 48)) cs
    else if c == '_' then
      match cs with
      | [] => none
      | d :: cs2 =>
          if d.isDigit then digitsValAux (10 * acc + (d.toNat - 48)) cs2
          else none
    else none

/-- The digit run of Python `int(str)`: at least one digit, underscores
only between digits. -/
def digitsVal : List Char → Option ℕ
  | [] => none
  | c :: cs => if c.isDigit then digitsValAux (c.toNat - 48) cs else none

/-- Whitespace as Python `str.strip` removes it (ASCII part). -/
def isPySpace (c : Char) : Bool :=
  c == ' ' || c == '\t' || c == '\n' || c == '\r' || c == '\x0B' || c == '\x0C'

/-- Drop leading whitespace from a character list. -/
def dropSpace : List Char → List Char
  | [] => []
  | c :: rest => if isPySpace c then dropSpace rest else c :: rest

/-- Python `str.strip()`: remove whitespace from both ends. -/
def pyStrip (cs : List Char) : List Char :=
  (dropSpace (dropSpace cs).reverse).reverse

/-- Python `line.startswith("#")`. -/
def startsWithHash : List Char → Bool
  | c :: _ => c == '#'
  | [] => false

/-- Python `line.partition("=")`: the characters before the first `=`, and
the characters after it when one occurs at all (`none` models `"=" not
in line`). -/
def splitEq : List Char → List Char × Option (List Char)
  | [] => ([], none)
  | c :: rest =>
      if c == '=' then ([], some rest)
      else
        let p := splitEq rest
        (c :: p.1, p.2)

/-- Python `int(str)` on ASCII input: optional surrounding whitespace,
optional sign, then digits; `none` models the `ValueError`. -/
def pyInt (cs : List Char) : Option ℤ :=
  match pyStrip cs with
  | '+' :: rest => (digitsVal rest).map (fun n => (n : ℤ))
  | '-' :: rest => (digitsVal rest).map (fun n => -(n : ℤ))
  | rest => (digitsVal rest).map (fun n => (n : ℤ))

/-- The key part of a config line: what precedes the first `=` of the
stripped line, itself stripped (src/copilot.py lines 32-37). -/
def lineKey (line : List Char) : List Char :=
  pyStrip (splitEq (pyStrip line)).1

/-- The value part of a config line: what follows the first `=` of the
stripped line, stripped (src/copilot.py lines 36-38). -/
def lineValue (line : List Char) : List Char :=
  pyStrip ((splitEq (pyStrip line)).2.getD [])

/-- One iteration of the config-parsing loop of `load_copilot_config`
(src/copilot.py lines 31-45) on the state (token, quota): blank lines,
comment lines and lines without `=` are skipped; a `GITHUB_TOKEN` line
stores its value; a `COPILOT_QUOTA` line stores its value when it parses
as an integer and is otherwise silently ignored. -/
def stepLine (st : Option (List Char) × ℤ) (line : List Char) :
    Option (List Char) × ℤ :=
  if (pyStrip line).isEmpty then st
  else if startsWithHash (pyStrip line) then st
  else
    match (splitEq (pyStrip line)).2 with
    | none => st
    | some _ =>
        if lineKey line == "GITHUB_TOKEN".data then (some (lineValue line), st.2)
        else if lineKey line == "COPILOT_QUOTA".data then
          match pyInt (lineValue line) with
          | some n => (st.1, n)
          | none => st
        else st

/-- `load_copilot_config` (src/copilot.py lines 23-47), the filesystem read
abstracted as an optional list of lines (`none`: the file is missing).
Returns the token and the quota, starting from `None` and the default
quota 300. -/
def loadCopilotConfig (file : Option (List (List Char))) :
    Option (List Char) × ℤ :=
  match file with
  | none => (none, 300)
  | some lines => lines.foldl stepLine (none, 300)

/-- Decimal digit rendering of a natural number, least significant digit
computed last, as Python `str` renders an int. -/
def natDigits (n : ℕ) : List Char :=
  if h : n < 10 then [Char.ofNat (48 + n)]
  else natDigits (n / 10) ++ [Char.ofNat (48 + n % 10)]
decreasing_by exact Nat.div_lt_self (by omega) (by omega)

/-- The used label of `print_waybar` (src/copilot.py line 143):
`str(int(used)) if used == int(used) else str(used)`.  The float reaching
this line is non-negative and carries one decimal place (it was produced
by `round(used, 1)` in `_fetch_copilot_usage_uncached`), so it is
represented exactly by its count of tenths: the value is `tenths / 10`.
An integral value renders as its integer part; a fractional one renders
as integer part, decimal point, and the single tenths digit, which is
what Python `str` prints for such a float.  The rendering is given as its
character sequence. -/
def usedLabel (tenths : ℕ) : List Char :=
  if tenths % 10 = 0 then natDigits (tenths / 10)
  else natDigits (tenths / 10) ++ '.' :: natDigits (tenths % 10)

/-! Claim theorems. -/

/-- C1: for every quota > 0 and used ≥ 0, the displayed percentage is
round(used/quota*100) and it is 0 when the quota is not positive; the
plaintext path reports the raw value unclamped while the waybar path
clamps it at 100; at used=400, quota=300 the plaintext value is 133 and
the structured one 100. -/
theorem claim1_percentage_paths :
    (∀ (used : ℚ) (quota : ℤ), 0 < quota → 0 ≤ used →
      cliPct used quota = pyRound (used / (quota : ℚ) * 100) ∧
      waybarPct used quota = min (pyRound (used / (quota : ℚ) * 100)) 100) ∧
    (∀ (used : ℚ) (quota : ℤ), ¬ 0 < quota →
      cliPct used quota = 0 ∧ waybarPct used quota = 0) ∧
    cliPct 400 300 = 133 ∧ waybarPct 400 300 = 100 := by
  have h1 : ((400 : ℚ) / ((300 : ℤ) : ℚ) * 100) = 400 / 3 := by norm_num
  have h2 : ⌊(400 : ℚ) / 3⌋ = 133 := by norm_num
  refine ⟨?_, ?_, ?_, ?_⟩
  · intro used quota hq _
    constructor
    · simp [cliPct, hq]
    · simp [waybarPct, hq]
  · intro used quota hq
    constructor
    · simp [cliPct, hq]
    · simp [waybarPct, hq]
  · have hq : (0 : ℤ) < 300 := by decide
    simp only [cliPct, if_pos hq, h1, pyRound, h2]
    norm_num
  · have hq : (0 : ℤ) < 300 := by decide
    simp only [waybarPct, if_pos hq, h1, pyRound, h2]
    norm_num

/-- Witness for C1 at used=400, quota=300. -/
theorem claim1_percentage_paths_witness :
    cliPct 400 300 = pyRound ((400 : ℚ) / ((300 : ℤ) : ℚ) * 100) :=
  (claim1_percentage_paths.1 400 300 (by decide) (by decide)).1

/-- C4: the severity tier is low exactly below 50, mid exactly from 50
below 80, high exactly from 80 (49 is low, 50 and 79 mid, 80 high), and
the emitted class is the tier name with the styling prefix. -/
theorem claim4_tier_boundaries :
    (∀ pct : ℤ,
      (tierClass pct = "copilot-low" ↔ pct < 50) ∧
      (tierClass pct = "copilot-mid" ↔ 50 ≤ pct ∧ pct < 80) ∧
      (tierClass pct = "copilot-high" ↔ 80 ≤ pct) ∧
      tierClass pct = "copilot-" ++ specTierName pct) ∧
    tierClass 49 = "copilot-low" ∧ tierClass 50 = "copilot-mid" ∧
    tierClass 79 = "copilot-mid" ∧ tierClass 80 = "copilot-high" := by
  refine ⟨?_, by decide, by decide, by decide, by decide⟩
  intro pct
  unfold tierClass specTierName
  split_ifs with h1 h2 <;>
    refine ⟨?_, ?_, ?_, ?_⟩ <;>
    simp_all <;>
    omega

/-- C5: the reset instant is midnight UTC on the 1st of the calendar month
after the current one, December rolling to January of the next year; from
2024-12-15 it is 2025-01-01T00:00:00Z and from 2024-06-15 it is
2024-07-01T00:00:00Z. -/
theorem claim5_reset_instant :
    (∀ now : DateTimeUTC, 1 ≤ now.month → now.month ≤ 12 →
      (nextMonthReset now).day = 1 ∧ (nextMonthReset now).hour = 0 ∧
      (nextMonthReset now).minute = 0 ∧ (nextMonthReset now).second = 0 ∧
      1 ≤ (nextMonthReset now).month ∧ (nextMonthReset now).month ≤ 12 ∧
      12 * (nextMonthReset now).year + ((nextMonthReset now).month : ℤ) =
        12 * now.year + (now.month : ℤ) + 1) ∧
    nextMonthReset ⟨2024, 12, 15, 0, 0, 0⟩ = ⟨2025, 1, 1, 0, 0, 0⟩ ∧
    nextMonthReset ⟨2024, 6, 15, 0, 0, 0⟩ = ⟨2024, 7, 1, 0, 0, 0⟩ := by
  refine ⟨?_, by decide, by decide⟩
  intro now hm1 hm2
  unfold nextMonthReset
  by_cases h : now.month = 12 <;> simp [h] <;> omega

/-- Witness for C5 on 2024-12-15 (at 03:04:05 UTC). -/
theorem claim5_reset_instant_witness :
    (nextMonthReset ⟨2024, 12, 15, 3, 4, 5⟩).day = 1 :=
  (claim5_reset_instant.1 ⟨2024, 12, 15, 3, 4, 5⟩ (by decide) (by decide)).1

/-- C6: in waybar mode every run exits 0, a fetch failure emits a
structured error payload, and its label is the authentication class
exactly when the error text contains 401 or 403, the network class
otherwise. -/
theorem claim6_structured_failure :
    (∀ (cfgPath : String) (token : Option String) (quota : ℤ)
        (fetch : Unit → Except String ℚ),
      (mainRun cfgPath token quota true fetch).exitCode = 0) ∧
    (∀ (cfgPath t : String) (quota : ℤ) (fetch : Unit → Except String ℚ)
        (e : String), t ≠ "" → fetch () = .error e →
      (mainRun cfgPath (some t) quota true fetch).payload =
        some (.errorPayload (classifyShortErr e) "critical") ∧
      (mainRun cfgPath (some t) quota true fetch).outcome = .fetchError e) ∧
    (∀ e : String,
      (classifyShortErr e = "Auth Err" ↔
        (strContains e "401" = true ∨ strContains e "403" = true)) ∧
      (classifyShortErr e = "Net Err" ↔
        ¬(strContains e "401" = true ∨ strContains e "403" = true))) := by
  refine ⟨?_, ?_, ?_⟩
  · intro p tk q f
    unfold mainRun
    rcases tk with _ | t
    · simp
    · by_cases ht : t == "" <;> simp [ht] <;> cases hf : f () <;> simp [hf]
  · intro p t q f e ht hf
    have ht2 : (t == "") = false := beq_eq_false_iff_ne.mpr ht
    unfold mainRun
    simp [ht2, hf]
  · intro e
    unfold classifyShortErr
    by_cases h : (strContains e "401" || strContains e "403") = true
    · rw [if_pos h]
      simp only [Bool.or_eq_true] at h
      refine ⟨⟨fun _ => h, fun _ => rfl⟩, ?_, ?_⟩
      · intro hEq; exact absurd hEq (by decide)
      · intro hn; exact absurd h hn
    · rw [if_neg h]
      simp only [Bool.or_eq_true] at h
      refine ⟨⟨?_, ?_⟩, fun _ => h, fun _ => rfl⟩
      · intro hEq; exact absurd hEq (by decide)
      · intro hor; exact absurd hor h

/-- Witness for C6: a 401 failure in waybar mode. -/
theorem claim6_structured_failure_witness :
    (mainRun "cfg" (some "tok") 300 true
        (fun _ => .error "HTTP 401: bad credentials")).payload =
      some (.errorPayload (classifyShortErr "HTTP 401: bad credentials")
        "critical") :=
  (claim6_structured_failure.2.1 "cfg" "tok" 300
    (fun _ => .error "HTTP 401: bad credentials") "HTTP 401: bad credentials"
    (by decide) rfl).1

/-- C8: a missing credential makes a plaintext run end as a configuration
error, exit 1, write a message to stderr, and perform no network call;
in waybar mode too no network call happens; the configuration-error
outcome is distinct from every remote-call outcome. -/
theorem claim8_missing_credential :
    (∀ (cfgPath : String) (quota : ℤ) (fetch : Unit → Except String ℚ),
      (mainRun cfgPath none quota false fetch).outcome = .configError ∧
      (mainRun cfgPath none quota false fetch).exitCode = 1 ∧
      (mainRun cfgPath none quota false fetch).networkCalls = 0 ∧
      (mainRun cfgPath none quota false fetch).stderrLine =
        some ("[!] Error: No GITHUB_TOKEN in " ++ cfgPath)) ∧
    (∀ (cfgPath : String) (quota : ℤ) (fetch : Unit → Except String ℚ),
      (mainRun cfgPath none quota true fetch).networkCalls = 0) ∧
    (∀ msg, RunOutcome.configError ≠ RunOutcome.fetchError msg) ∧
    (∀ used, RunOutcome.configError ≠ RunOutcome.success used) := by
  refine ⟨?_, ?_, ?_, ?_⟩
  · intro p q f; exact ⟨rfl, rfl, rfl, rfl⟩
  · intro p q f; rfl
  · intro msg h; exact RunOutcome.noConfusion h
  · intro used h; exact RunOutcome.noConfusion h

/-- Rounding 7/2 to one decimal place leaves it unchanged. -/
theorem pyRound1_seven_halves : pyRound1 ((7 : ℚ) / 2) = 7 / 2 := by
  have h1 : ((7 : ℚ) / 2 * 10) = 35 := by norm_num
  have h2 : ⌊(35 : ℚ)⌋ = 35 := by norm_num
  simp only [pyRound1, pyRound, h1, h2]
  norm_num

/-- C2: the aggregator accepts a bare list of items or an object holding
the list under usageItems, sums the numeric grossQuantity fields with a
missing field counting as 0, and rounds the total to one decimal; the
three-item example sums to 3.5 in both shapes. -/
theorem claim2_usage_aggregation :
    (∀ (items : List Json) (q : ℚ), sumGross items = some q →
      aggregateUsed (.arr items) = some (pyRound1 q) ∧
      aggregateUsed (.obj [("usageItems", .arr items)]) = some (pyRound1 q)) ∧
    (∀ fields, jsonGet fields "grossQuantity" = none →
      itemGross (.obj fields) = some 0) ∧
    aggregateUsed (.arr [.obj [("grossQuantity", .num 1)],
        .obj [("grossQuantity", .num (5 / 2))],
        .obj [("grossQuantity", .num 0)]]) = some (7 / 2) ∧
    aggregateUsed (.obj [("usageItems", .arr [.obj [("grossQuantity", .num 1)],
        .obj [("grossQuantity", .num (5 / 2))],
        .obj [("grossQuantity", .num 0)]])]) = some (7 / 2) := by
  have hsum : sumGross [.obj [("grossQuantity", Json.num 1)],
      .obj [("grossQuantity", Json.num (5 / 2))],
      .obj [("grossQuantity", Json.num 0)]] =
      some ((1 : ℚ) + (5 / 2 + (0 + 0))) := rfl
  have hval : ((1 : ℚ) + (5 / 2 + (0 + 0))) = 7 / 2 := by norm_num
  have hgen : ∀ (items : List Json) (q : ℚ), sumGross items = some q →
      aggregateUsed (.arr items) = some (pyRound1 q) ∧
      aggregateUsed (.obj [("usageItems", .arr items)]) = some (pyRound1 q) := by
    intro items q hq
    constructor
    · simp [aggregateUsed, normalizeUsage, hq]
    · simp [aggregateUsed, normalizeUsage, jsonGet, hq]
  refine ⟨hgen, ?_, ?_, ?_⟩
  · intro fields hf
    simp [itemGross, hf]
  · have h := (hgen _ _ (hsum.trans (by rw [hval]))).1
    rwa [pyRound1_seven_halves] at h
  · have h := (hgen _ _ (hsum.trans (by rw [hval]))).2
    rwa [pyRound1_seven_halves] at h

/-- Witness for C2 on a one-item list. -/
theorem claim2_usage_aggregation_witness :
    aggregateUsed (.arr [.obj [("grossQuantity", Json.num 2)]]) =
      some (pyRound1 (2 + 0)) :=
  (claim2_usage_aggregation.1 [.obj [("grossQuantity", Json.num 2)]]
    (2 + 0) rfl).1

/-- C7 (amended): identity resolution fails exactly when the response is
not an object, the login field is absent, or its value is falsy under
Python truthiness (None, empty string, 0, False, empty collection); on
failure no identifier is returned and the usage endpoint is never
addressed. -/
theorem claim7_identity_gate :
    (∀ data : Json, exceptOk (pyGetUsername data) = false ↔
      (Json.isObj data = false ∨ loginGet data = none ∨
        ∃ v, loginGet data = some v ∧ v.truthy = false)) ∧
    (∀ (idResp usageResp : Json) (e : String),
      pyGetUsername idResp = .error e →
      (fetchPipeline idResp usageResp).2 = 0 ∧
      (fetchPipeline idResp usageResp).1 = .error e) := by
  constructor
  · intro data
    cases data with
    | obj fields =>
        cases hg : jsonGet fields "login" with
        | none => simp [pyGetUsername, loginGet, hg, exceptOk, Json.isObj]
        | some v =>
            by_cases ht : v.truthy = true
            · simp [pyGetUsername, loginGet, hg, ht, exceptOk, Json.isObj]
            · simp only [Bool.not_eq_true] at ht
              simp [pyGetUsername, loginGet, hg, ht, exceptOk, Json.isObj]
    | null => simp [pyGetUsername, loginGet, exceptOk, Json.isObj]
    | bool b => simp [pyGetUsername, loginGet, exceptOk, Json.isObj]
    | num q => simp [pyGetUsername, loginGet, exceptOk, Json.isObj]
    | str s => simp [pyGetUsername, loginGet, exceptOk, Json.isObj]
    | arr items => simp [pyGetUsername, loginGet, exceptOk, Json.isObj]
  · intro idResp usageResp e h
    simp [fetchPipeline, h]

/-- C7, counterexample to the claim as stated: an object response whose
login field is present but empty still fails identity resolution. -/
theorem claim7_identity_gate_counterexample :
    Json.isObj (Json.obj [("login", Json.str "")]) = true ∧
    (loginGet (Json.obj [("login", Json.str "")])).isSome = true ∧
    exceptOk (pyGetUsername (Json.obj [("login", Json.str "")])) = false :=
  ⟨rfl, rfl, rfl⟩

/-- Witness for C7: a null identity response reaches the usage endpoint
zero times. -/
theorem claim7_identity_gate_witness :
    (fetchPipeline Json.null (Json.arr [])).2 = 0 :=
  (claim7_identity_gate.2 Json.null (Json.arr [])
    "Could not determine GitHub username" rfl).1

/-- A singleton cache holding `key` is found under `key`. -/
theorem find_singleton (key : String) (t : ℤ) (v : Json) :
    List.find? (fun e => e.1 == key) [(key, t, v)] = some (key, t, v) := by
  simp [List.find?]

/-- Two cache-backed fetches from a cold start: one producer call when the
second comes within the TTL, two when it comes at or after expiry. -/
theorem cache_idempotence (key : String) (producer : Unit → Json)
    (ttl t1 t2 : ℤ) :
    (t2 < t1 + ttl →
      (getCachedOrFetch key producer ttl t1 []).calls +
        (getCachedOrFetch key producer ttl t2
          (getCachedOrFetch key producer ttl t1 []).cache).calls = 1) ∧
    (t1 + ttl ≤ t2 →
      (getCachedOrFetch key producer ttl t1 []).calls +
        (getCachedOrFetch key producer ttl t2
          (getCachedOrFetch key producer ttl t1 []).cache).calls = 2) := by
  have h1 : getCachedOrFetch key producer ttl t1 [] =
      ⟨producer (), [(key, t1, producer ())], 1⟩ := rfl
  constructor
  · intro hlt
    rw [h1]
    simp only [getCachedOrFetch, find_singleton]
    rw [if_pos (by omega : t1 + ttl > t2)]
    rfl
  · intro hle
    rw [h1]
    simp only [getCachedOrFetch, find_singleton]
    rw [if_neg (by omega : ¬t1 + ttl > t2)]
    rfl

/-- C3: identity and usage snapshots are cached under distinct keys with
distinct TTLs (3600 seconds and 60 seconds); for each key, fetching twice
within the TTL runs the producer once, and fetching again after expiry
runs it again.  The cache itself is modelled from the spec, since
common.py is not part of the repository. -/
theorem claim3_cache_keys_ttls :
    identityKey ≠ usageKey ∧ identityTtl = 3600 ∧ usageTtl = 60 ∧
    identityTtl ≠ usageTtl ∧
    (∀ (producer : Unit → Json) (t1 t2 : ℤ),
      (t2 < t1 + identityTtl →
        (cachedIdentity producer t1 []).calls +
          (cachedIdentity producer t2
            (cachedIdentity producer t1 []).cache).calls = 1) ∧
      (t1 + identityTtl ≤ t2 →
        (cachedIdentity producer t1 []).calls +
          (cachedIdentity producer t2
            (cachedIdentity producer t1 []).cache).calls = 2)) ∧
    (∀ (producer : Unit → Json) (t1 t2 : ℤ),
      (t2 < t1 + usageTtl →
        (cachedUsage producer t1 []).calls +
          (cachedUsage producer t2
            (cachedUsage producer t1 []).cache).calls = 1) ∧
      (t1 + usageTtl ≤ t2 →
        (cachedUsage producer t1 []).calls +
          (cachedUsage producer t2
            (cachedUsage producer t1 []).cache).calls = 2)) := by
  refine ⟨by decide, rfl, rfl, by decide, ?_, ?_⟩
  · intro producer t1 t2
    exact cache_idempotence identityKey producer identityTtl t1 t2
  · intro producer t1 t2
    exact cache_idempotence usageKey producer usageTtl t1 t2

/-- Witness for C3: a second identity fetch 10 seconds after a cold one
leaves the producer-call count at one. -/
theorem claim3_cache_keys_ttls_witness :
    (cachedIdentity (fun _ => Json.null) 0 []).calls +
      (cachedIdentity (fun _ => Json.null) 10
        (cachedIdentity (fun _ => Json.null) 0 []).cache).calls = 1 :=
  (claim3_cache_keys_ttls.2.2.2.2.1 (fun _ => Json.null) 0 10).1 (by decide)

/-- A number below ten renders as a single digit character. -/
theorem natDigits_lt_ten (n : ℕ) (h : n < 10) :
    natDigits n = [Char.ofNat (48 + n)] := by
  unfold natDigits
  rw [dif_pos h]

/-- No decimal point occurs among rendered digits. -/
theorem dot_not_mem_natDigits : ∀ n : ℕ, '.' ∉ natDigits n := by
  intro n
  induction n using Nat.strong_induction_on with
  | _ n ih =>
    unfold natDigits
    split
    · rename_i h
      interval_cases n <;> decide
    · rename_i h
      intro hmem
      rcases List.mem_append.1 hmem with hmem1 | hmem2
      · exact ih (n / 10) (Nat.div_lt_self (by omega) (by omega)) hmem1
      · have hq : n % 10 < 10 := Nat.mod_lt _ (by omega)
        simp only [List.mem_singleton] at hmem2
        revert hmem2
        generalize n % 10 = k at hq
        interval_cases k <;> decide

/-- C9: the used label has no decimal point exactly when the value is
integral, an integral value renders as its integer part alone, and a
fractional value renders as integer part, one decimal point and exactly
one digit; 3.0 renders as 3 and 3.5 as 3.5.  The value is represented by
its count of tenths. -/
theorem claim9_used_label :
    (∀ t : ℕ, '.' ∉ usedLabel t ↔ t % 10 = 0) ∧
    (∀ t : ℕ, t % 10 = 0 → usedLabel t = natDigits (t / 10)) ∧
    (∀ t : ℕ, t % 10 ≠ 0 →
      usedLabel t = natDigits (t / 10) ++ '.' :: [Char.ofNat (48 + t % 10)] ∧
      '.' ∉ natDigits (t / 10) ∧ Char.ofNat (48 + t % 10) ≠ '.') ∧
    usedLabel 30 = "3".data ∧ usedLabel 35 = "3.5".data := by
  refine ⟨?_, ?_, ?_, ?_, ?_⟩
  · intro t
    by_cases h : t % 10 = 0
    · simp [usedLabel, h, dot_not_mem_natDigits]
    · simp [usedLabel, h]
  · intro t h
    simp [usedLabel, h]
  · intro t h
    refine ⟨?_, dot_not_mem_natDigits _, ?_⟩
    · simp [usedLabel, h, natDigits_lt_ten _ (Nat.mod_lt _ (by omega))]
    · have hq : t % 10 < 10 := Nat.mod_lt _ (by omega)
      generalize t % 10 = k at hq
      interval_cases k <;> decide
  · rw [show usedLabel 30 = natDigits 3 by simp [usedLabel],
      natDigits_lt_ten 3 (by omega)]
  · rw [show usedLabel 35 = natDigits 3 ++ '.' :: natDigits 5 by
      simp [usedLabel], natDigits_lt_ten 3 (by omega),
      natDigits_lt_ten 5 (by omega)]
    decide

/-- Witness for C9 at 3.0 (30 tenths) and 3.5 (35 tenths). -/
theorem claim9_used_label_witness :
    usedLabel 30 = natDigits (30 / 10) ∧
    usedLabel 35 = natDigits (35 / 10) ++ '.' :: [Char.ofNat (48 + 35 % 10)] :=
  ⟨claim9_used_label.2.1 30 (by decide),
    (claim9_used_label.2.2.1 35 (by decide)).1⟩

/-- C10: config loading is total in the model; a missing file yields no
token and the default quota 300; blank lines, comment lines and lines
without an equals sign are skipped; an unparseable quota value is
silently ignored leaving the state unchanged; and the last valid
assignment of a key wins. -/
theorem claim10_load_config :
    loadCopilotConfig none = (none, 300) ∧
    (∀ st line, pyStrip line = [] → stepLine st line = st) ∧
    (∀ st line, startsWithHash (pyStrip line) = true → stepLine st line = st) ∧
    (∀ st line, (splitEq (pyStrip line)).2 = none → stepLine st line = st) ∧
    (∀ st line, lineKey line = "COPILOT_QUOTA".data →
      pyInt (lineValue line) = none → stepLine st line = st) ∧
    (∀ st lines line n, pyStrip line ≠ [] →
      startsWithHash (pyStrip line) = false →
      (splitEq (pyStrip line)).2 ≠ none →
      lineKey line = "COPILOT_QUOTA".data →
      pyInt (lineValue line) = some n →
      (List.foldl stepLine st (lines ++ [line])).2 = n ∧
      (List.foldl stepLine st (lines ++ [line])).1 =
        (List.foldl stepLine st lines).1) ∧
    (∀ st lines line, pyStrip line ≠ [] →
      startsWithHash (pyStrip line) = false →
      (splitEq (pyStrip line)).2 ≠ none →
      lineKey line = "GITHUB_TOKEN".data →
      (List.foldl stepLine st (lines ++ [line])).1 = some (lineValue line) ∧
      (List.foldl stepLine st (lines ++ [line])).2 =
        (List.foldl stepLine st lines).2) := by
  refine ⟨rfl, ?_, ?_, ?_, ?_, ?_, ?_⟩
  · intro st line h
    simp [stepLine, h]
  · intro st line h
    by_cases he : (pyStrip line).isEmpty
    · simp [stepLine, he]
    · simp [stepLine, he, h]
  · intro st line h
    simp [stepLine, h]
  · intro st line hkey hparse
    have hneg : (lineKey line == "GITHUB_TOKEN".data) = false := by
      rw [hkey]; decide
    have hpos : (lineKey line == "COPILOT_QUOTA".data) = true := by
      rw [hkey]; decide
    by_cases he : (pyStrip line).isEmpty
    · simp [stepLine, he]
    · by_cases hh : startsWithHash (pyStrip line)
      · simp [stepLine, he, hh]
      · cases hs : (splitEq (pyStrip line)).2 with
        | none => simp [stepLine, he, hh, hs]
        | some rest => simp [stepLine, he, hh, hs, hneg, hpos, hparse]
  · intro st lines line n h1 h2 h3 hkey hparse
    have he : (pyStrip line).isEmpty = false := by
      cases hl : pyStrip line with
      | nil => exact absurd hl h1
      | cons c cs => simp
    have hneg : (lineKey line == "GITHUB_TOKEN".data) = false := by
      rw [hkey]; decide
    have hpos : (lineKey line == "COPILOT_QUOTA".data) = true := by
      rw [hkey]; decide
    rw [List.foldl_append, List.foldl_cons, List.foldl_nil]
    cases hs : (splitEq (pyStrip line)).2 with
    | none => exact absurd hs h3
    | some rest =>
        refine ⟨?_, ?_⟩ <;> simp [stepLine, he, h2, hs, hneg, hpos, hparse]
  · intro st lines line h1 h2 h3 hkey
    have he : (pyStrip line).isEmpty = false := by
      cases hl : pyStrip line with
      | nil => exact absurd hl h1
      | cons c cs => simp
    have hpos : (lineKey line == "GITHUB_TOKEN".data) = true := by
      rw [hkey]; decide
    rw [List.foldl_append, List.foldl_cons, List.foldl_nil]
    cases hs : (splitEq (pyStrip line)).2 with
    | none => exact absurd hs h3
    | some rest =>
        refine ⟨?_, ?_⟩ <;> simp [stepLine, he, h2, hs, hpos]

/-- Witness for C10: of two quota lines the later valid one wins. -/
theorem claim10_load_config_witness :
    (List.foldl stepLine (none, 300)
      (["COPILOT_QUOTA=200".data] ++ ["COPILOT_QUOTA=500".data])).2 = 500 :=
  (claim10_load_config.2.2.2.2.2.1 (none, 300) ["COPILOT_QUOTA=200".data]
    "COPILOT_QUOTA=500".data 500 (by decide) (by decide) (by decide)
    (by decide) (by decide)).1

end Copilot
